import Mathlib

/-!
Verification of the liveconnect matchmaking/session core.

The repository contains several closely related server implementations of the
same session-lifecycle engine:
  * `src/server.js` — the "BrownTV 3.0" server (class `MatchmakingSystem`,
    `userProfiles` map, `createMatch`, socket handlers);
  * `src/unnamed/part_001` (first half) — the "LiveConnect" server
    (`users` map, single `waitingQueue`, `findMatch`, `createRoom`);
  * `src/unnamed/part_001` (second half) — the "BrownTV" server
    (`waitingQueues` {all, male, female}, `blockedUsers`, `findMatch`,
    `createMatch`, `endCall`);
  * `src/unnamed/part_000` — the "BrownTV 2.0" server (same shape as the
    part_001 BrownTV variant).

Each variant is embedded in its own namespace (`ServerJs`, `LiveConnect`,
`BrownTv`), with user maps modelled as functions `String → Option _`
(JavaScript `Map` keyed by socket id), queues as `List String`, and the
wall clock (`Date.now()`) passed in as an explicit `now : Nat` parameter.
Event emissions (`socket.emit` / `io.to(..).emit`) are modelled as returned
event lists.  External effects that no modelled handler ever reads back
(Redis mirror writes, `activeCalls` call records, log lines, broadcast
stats) are omitted.
-/

/-- Character-level model of JavaScript `String.prototype.trim`:
drop whitespace from both ends of the character list. -/
def jsTrimChars (l : List Char) : List Char :=
  ((l.dropWhile Char.isWhitespace).reverse.dropWhile Char.isWhitespace).reverse

/-- Model of the JavaScript chain `s.slice(0, n).trim()`: keep the first `n`
characters, then strip surrounding whitespace. -/
def jsSliceTrim (n : Nat) (s : String) : String :=
  ⟨jsTrimChars (s.data.take n)⟩

/-- JavaScript `Map.prototype.set`: point update of a finite map. -/
def mapSet {α : Type} (f : String → Option α) (k : String) (v : α) : String → Option α :=
  fun x => if x = k then some v else f x

/-- JavaScript `Map.prototype.delete`: remove a key from a finite map. -/
def mapDelete {α : Type} (f : String → Option α) (k : String) : String → Option α :=
  fun x => if x = k then none else f x

namespace ServerJs

/-- The fields of a `src/server.js` user profile that the modelled operations
read or write (the full profile has many more cosmetic fields). -/
structure Profile where
  name : String
  gender : Option String
  lookingFor : String
  blocked : List String
  inCall : Bool
  partnerId : Option String
  isOnline : Bool
  totalCalls : Nat
deriving DecidableEq, Repr

/-- The four waiting queues of `MatchmakingSystem` in `src/server.js`
(`this.waitingUsers` keyed by `'all' | 'male' | 'female' | 'random'`). -/
structure Queues where
  all : List String
  male : List String
  female : List String
  random : List String
deriving DecidableEq, Repr

/-- `MatchmakingSystem.removeUserFromAllQueues` (src/server.js:158):
for each queue, `indexOf` + `splice` removes the first occurrence. -/
def removeUserFromAllQueues (socketId : String) (q : Queues) : Queues :=
  ⟨q.all.erase socketId, q.male.erase socketId, q.female.erase socketId,
   q.random.erase socketId⟩

/-- Queue selection of `addUserToQueue` (src/server.js:49-50):
`userData.lookingFor || 'all'`, then `waitingUsers.get(queueType)` with a
fallback to the `'all'` queue when the key is not one of the four queues. -/
def queueKey (lookingFor : String) : String :=
  let queueType := if lookingFor = "" then "all" else lookingFor
  if queueType = "all" ∨ queueType = "male" ∨ queueType = "female" ∨ queueType = "random" then
    queueType
  else "all"

/-- Append `socketId` to the queue named `key` (the `queue.push(socketId)`
of src/server.js:60). -/
def pushQueue (key : String) (socketId : String) (q : Queues) : Queues :=
  if key = "male" then { q with male := q.male ++ [socketId] }
  else if key = "female" then { q with female := q.female ++ [socketId] }
  else if key = "random" then { q with random := q.random ++ [socketId] }
  else { q with all := q.all ++ [socketId] }

/-- `MatchmakingSystem.addUserToQueue` (src/server.js:48-68): the user is
first spliced out of every queue, then pushed onto the target queue.
(The JS code binds the target array before the removal loop, but arrays are
mutated in place, so the effect is remove-then-push.) -/
def addUserToQueue (socketId : String) (lookingFor : String) (q : Queues) : Queues :=
  pushQueue (queueKey lookingFor) socketId (removeUserFromAllQueues socketId q)

/-- The queue-mutating operations reachable from the socket handlers:
`find-match` enqueues, disconnect dequeues everywhere, and `createMatch`
removes both bound users from all queues. -/
inductive QOp
  | enqueue (socketId : String) (lookingFor : String)
  | dequeueAll (socketId : String)
  | bindPair (id1 id2 : String)

def applyQOp (q : Queues) : QOp → Queues
  | .enqueue socketId lookingFor => addUserToQueue socketId lookingFor q
  | .dequeueAll socketId => removeUserFromAllQueues socketId q
  | .bindPair id1 id2 =>
      removeUserFromAllQueues id2 (removeUserFromAllQueues id1 q)

def emptyQueues : Queues := ⟨[], [], [], []⟩

def runQOps (ops : List QOp) : Queues := ops.foldl applyQOp emptyQueues

/-- Total number of occurrences of `socketId` across all four queues. -/
def occurrences (socketId : String) (q : Queues) : Nat :=
  q.all.count socketId + q.male.count socketId + q.female.count socketId +
    q.random.count socketId

/-- Events emitted by the modelled `src/server.js` handlers. -/
inductive Event
  | matchFound (target : String) (isInitiator : Bool)
  | partnerDisconnected (target : String)
deriving DecidableEq, Repr

/-- The in-memory server state of `src/server.js`: the `userProfiles` map and
the matchmaker's queues. -/
structure State where
  profiles : String → Option Profile
  queues : Queues

/-- `createMatch` (src/server.js:695-758): fails when either profile is
missing, either is already in a call, or either has blocked the other;
otherwise binds both sides, removes both from all queues and emits the two
`match-found` events (`user1` = the requester gets `isInitiator: true`). -/
def createMatch (s : State) (user1Id user2Id : String) : Bool × State × List Event :=
  match s.profiles user1Id, s.profiles user2Id with
  | some user1, some user2 =>
    if user1.inCall || user2.inCall then (false, s, [])
    else if user2Id ∈ user1.blocked ∨ user1Id ∈ user2.blocked then (false, s, [])
    else
      let user1' := { user1 with inCall := true, partnerId := some user2Id,
                                 totalCalls := user1.totalCalls + 1 }
      let user2' := { user2 with inCall := true, partnerId := some user1Id,
                                 totalCalls := user2.totalCalls + 1 }
      (true,
       { profiles := mapSet (mapSet s.profiles user1Id user1') user2Id user2',
         queues := removeUserFromAllQueues user2Id
                     (removeUserFromAllQueues user1Id s.queues) },
       [Event.matchFound user1Id true, Event.matchFound user2Id false])
  | _, _ => (false, s, [])

/-- The `disconnect` handler (src/server.js:660-688): marks the profile
offline, resets the partner's link and notifies it, and removes the user from
the queues.  The profile itself is only deleted by a 60-second `setTimeout`,
so immediately after the handler it is still present — with its own
`partnerId` and `inCall` fields untouched. -/
def disconnectHandler (s : State) (userId : String) : State × List Event :=
  match s.profiles userId with
  | none => (s, [])
  | some profile =>
    let s1 : State := { s with profiles := mapSet s.profiles userId { profile with isOnline := false } }
    let step2 : State × List Event :=
      match profile.partnerId with
      | some pid =>
        match s1.profiles pid with
        | some partner =>
          ({ s1 with profiles := mapSet s1.profiles pid
                       { partner with inCall := false, partnerId := none } },
           [Event.partnerDisconnected pid])
        | none => (s1, [])
      | none => (s1, [])
    ({ step2.1 with queues := removeUserFromAllQueues userId step2.1.queues }, step2.2)

/-- The `chat-message` handler (src/server.js:622-632): if the sender has a
partner, the message text is forwarded to the partner unmodified — no
truncation, no trimming, no empty-message drop. -/
def chatMessageHandler (s : State) (userId : String) (message : String) :
    Option (String × String) :=
  match s.profiles userId with
  | none => none
  | some profile =>
    match profile.partnerId with
    | none => none
    | some pid => some (pid, message)

/-- A patch sent to the `update-profile` handler, restricted to the two
enumerated preference fields (`some v` = the key is present with value `v`). -/
structure ProfilePatch where
  gender : Option String
  lookingFor : Option String
deriving Repr

/-- The `update-profile` handler (src/server.js:321-329):
`Object.assign(profile, data)` — every supplied key overwrites the profile
field with the supplied value, with no validation of enum values. -/
def updateProfileAssign (profile : Profile) (data : ProfilePatch) : Profile :=
  let p1 := match data.gender with
    | some g => { profile with gender := some g }
    | none => profile
  match data.lookingFor with
  | some lf => { p1 with lookingFor := lf }
  | none => p1

end ServerJs

namespace BrownTv

/-- A user record of the BrownTV server in `src/unnamed/part_001` (second
half, lines 740-756), restricted to the fields the modelled operations
touch.  `region` is the user's `country.region`. -/
structure User where
  name : String
  gender : Option String
  lookingFor : String
  regionFilter : Option String
  region : String
  inCall : Bool
  partnerId : Option String
  searching : Bool
  callStartTime : Option Nat
  totalCallTime : Nat
deriving DecidableEq, Repr

/-- The three waiting queues (`waitingQueues = { all: [], male: [], female: [] }`,
part_001:536-540). -/
structure Queues where
  all : List String
  male : List String
  female : List String
deriving DecidableEq, Repr

/-- Server state of the BrownTV variant: the `users` map, the queues, and the
`blockedUsers` map (an absent key behaves as an empty block list, matching
`blockedUsers.get(x)?.includes(y)` being falsy). -/
structure State where
  users : String → Option User
  queues : Queues
  blocked : String → List String

/-- `removeFromQueues` (part_001:617-622): splice the first occurrence out of
every queue. -/
def removeFromQueues (socketId : String) (q : Queues) : Queues :=
  ⟨q.all.erase socketId, q.male.erase socketId, q.female.erase socketId⟩

/-- One direction of the region filter in `findMatch`
(`if (user.regionFilter && match.country.region !== user.regionFilter) continue;`,
part_001:650-651): reject when a filter is set and the other side's region
differs. -/
def regionReject (filt : Option String) (region : String) : Bool :=
  match filt with
  | some rf => region != rf
  | none => false

/-- The gender condition of `findMatch`'s primary loop
(`if (match.lookingFor && match.lookingFor !== 'all' && match.lookingFor !== user.gender) continue;`,
part_001:654): the candidate's own gender-interest filter rejects the
requester. -/
def genderReject (candidate requester : User) : Bool :=
  candidate.lookingFor != "" && candidate.lookingFor != "all" &&
    requester.gender != some candidate.lookingFor

/-- The per-candidate acceptance test of `findMatch`'s scan loops
(part_001:638-658 for the preferred queue, 663-678 for the `'all'` fallback).
`checkGender` is true for the primary loop only: the fallback loop performs
the block and region checks but no gender check. -/
def candidateOk (s : State) (user : User) (socketId : String) (checkGender : Bool)
    (matchId : String) : Bool :=
  if matchId = socketId then false
  else
    match s.users matchId with
    | none => false
    | some m =>
      if m.inCall then false
      else if matchId ∈ s.blocked socketId ∨ socketId ∈ s.blocked matchId then false
      else if regionReject user.regionFilter m.region then false
      else if regionReject m.regionFilter user.region then false
      else if checkGender && genderReject m user then false
      else true

/-- One scan loop of `findMatch`: walk the queue front-to-back, return the
first acceptable candidate together with the queue with that candidate
spliced out. -/
def scanQueue (s : State) (user : User) (socketId : String) (checkGender : Bool) :
    List String → Option (String × List String)
  | [] => none
  | matchId :: rest =>
    if candidateOk s user socketId checkGender matchId then some (matchId, rest)
    else
      match scanQueue s user socketId checkGender rest with
      | some (found, rest') => some (found, matchId :: rest')
      | none => none

/-- `findMatch` (part_001:624-682): pick the queue named by the requester's
`lookingFor` ('male'/'female', anything else meaning the 'all' queue), scan it
with the full checks, and on failure fall back to the `'all'` queue — but the
fallback loop omits the gender check.  Returns the match (if any) and the
queues after the splice. -/
def findMatch (s : State) (socketId : String) : Option String × Queues :=
  match s.users socketId with
  | none => (none, s.queues)
  | some user =>
    if user.lookingFor = "male" then
      match scanQueue s user socketId true s.queues.male with
      | some (m, q') => (some m, { s.queues with male := q' })
      | none =>
        match scanQueue s user socketId false s.queues.all with
        | some (m, q') => (some m, { s.queues with all := q' })
        | none => (none, s.queues)
    else if user.lookingFor = "female" then
      match scanQueue s user socketId true s.queues.female with
      | some (m, q') => (some m, { s.queues with female := q' })
      | none =>
        match scanQueue s user socketId false s.queues.all with
        | some (m, q') => (some m, { s.queues with all := q' })
        | none => (none, s.queues)
    else
      match scanQueue s user socketId true s.queues.all with
      | some (m, q') => (some m, { s.queues with all := q' })
      | none => (none, s.queues)

/-- `createMatch` (part_001:684-705): only checks that both users exist; it
performs no `inCall` re-check and no block-list re-check.  On success both
partner links are set, both users are marked in-call, and both are removed
from all queues. -/
def createMatch (now : Nat) (s : State) (id1 id2 : String) : Bool × State :=
  match s.users id1, s.users id2 with
  | some u1, some u2 =>
    let u1' := { u1 with inCall := true, partnerId := some id2, searching := false,
                         callStartTime := some now }
    let u2' := { u2 with inCall := true, partnerId := some id1, searching := false,
                         callStartTime := some now }
    (true,
     { s with users := mapSet (mapSet s.users id1 u1') id2 u2',
              queues := removeFromQueues id2 (removeFromQueues id1 s.queues) })
  | _, _ => (false, s)

/-- `endCall` (part_001:707-730): reads the partner link, unconditionally
resets the caller's call fields and accumulates the call duration, then (if a
partner was linked and still exists) resets the partner's fields too, and
returns the former partner's id. -/
def endCall (now : Nat) (s : State) (socketId : String) : Option String × State :=
  match s.users socketId with
  | none => (none, s)
  | some user =>
    let callDuration := match user.callStartTime with
      | some t => now - t
      | none => 0
    let user' := { user with inCall := false, partnerId := none, callStartTime := none,
                             totalCallTime := user.totalCallTime + callDuration }
    let users1 := mapSet s.users socketId user'
    match user.partnerId with
    | none => (none, { s with users := users1 })
    | some pid =>
      match users1 pid with
      | none => (some pid, { s with users := users1 })
      | some partner =>
        let partner' := { partner with inCall := false, partnerId := none,
                                       callStartTime := none,
                                       totalCallTime := partner.totalCallTime + callDuration }
        (some pid, { s with users := mapSet users1 pid partner' })

/-- Events emitted by the modelled BrownTV handlers. -/
inductive Event
  | matchFound (target : String) (isInitiator : Bool)
  | searchingEvent (target : String)
  | partnerLeft (target : String) (reason : String)
  | userBlocked (target : String)
deriving DecidableEq, Repr

/-- The `find-match` handler (part_001:780-832): ignored when the user is
missing, already searching, or in a call; otherwise the user is marked
searching, removed from the queues, `findMatch` runs, and either
`createMatch` fires (requester's `match-found` carries `isInitiator: true`,
the candidate's `false`) or the user is enqueued by its own gender and told
it is searching. -/
def findMatchHandler (now : Nat) (s : State) (socketId : String) : State × List Event :=
  match s.users socketId with
  | none => (s, [])
  | some u =>
    if u.searching || u.inCall then (s, [])
    else
      let u1 := { u with searching := true }
      let s1 : State := { s with users := mapSet s.users socketId u1,
                                 queues := removeFromQueues socketId s.queues }
      match findMatch s1 socketId with
      | (some matchId, queues') =>
        let s2 := { s1 with queues := queues' }
        let res := createMatch now s2 socketId matchId
        if res.1 then
          (res.2, [Event.matchFound socketId true, Event.matchFound matchId false])
        else (res.2, [])
      | (none, queues') =>
        let s2 := { s1 with queues := queues' }
        let queues'' :=
          if u1.gender = some "male" then { s2.queues with male := s2.queues.male ++ [socketId] }
          else if u1.gender = some "female" then
            { s2.queues with female := s2.queues.female ++ [socketId] }
          else { s2.queues with all := s2.queues.all ++ [socketId] }
        ({ s2 with queues := queues'' }, [Event.searchingEvent socketId])

/-- The `block-user` handler (part_001:999-1016): a no-op unless the user is
bound; otherwise the partner's id is pushed onto the blocker's block list,
`endCall` tears down the call on both sides, the former partner receives
`partner-left{reason:'blocked'}`, and the blocker receives `user-blocked`. -/
def blockUserHandler (now : Nat) (s : State) (socketId : String) : State × List Event :=
  match s.users socketId with
  | none => (s, [])
  | some u =>
    match u.partnerId with
    | none => (s, [])
    | some targetId =>
      let blocked' := fun x =>
        if x = socketId then s.blocked socketId ++ [targetId] else s.blocked x
      let s1 : State := { s with blocked := blocked' }
      let res := endCall now s1 socketId
      let evs := (match res.1 with
                  | some pid => [Event.partnerLeft pid "blocked"]
                  | none => []) ++ [Event.userBlocked socketId]
      (res.2, evs)

/-- The `disconnect` handler (part_001:1047-1063): if the user was bound, the
partner's link is cleared and it is notified; then the user is removed from
the queues and deleted from the map. -/
def disconnectHandler (s : State) (socketId : String) : State × List Event :=
  let step1 : State × List Event :=
    match s.users socketId with
    | some u =>
      match u.partnerId with
      | some pid =>
        match s.users pid with
        | some partner =>
          ({ s with users := mapSet s.users pid
                      { partner with inCall := false, partnerId := none } },
           [Event.partnerLeft pid "disconnected"])
        | none => (s, [])
      | none => (s, [])
    | none => (s, [])
  ({ step1.1 with users := mapDelete step1.1.users socketId,
                  queues := removeFromQueues socketId step1.1.queues }, step1.2)

/-- The `chat-message` handler (part_001:888-900): only relays when the
sender is bound; the text is `String(data.message || '').slice(0, 500).trim()`
and an empty-after-trim message is dropped. -/
def chatMessageHandler (s : State) (socketId : String) (message : String) :
    Option (String × String) :=
  match s.users socketId with
  | none => none
  | some u =>
    match u.partnerId with
    | none => none
    | some pid =>
      let msg := jsSliceTrim 500 message
      if msg = "" then none else some (pid, msg)

/-- A patch sent to the BrownTV `update-profile` handler.  A field is `some v`
when the key is present with string value `v`; `unknownKeys` stands for any
other keys of the request body, which the handler never reads. -/
structure ProfilePatch where
  name : Option String
  gender : Option String
  lookingFor : Option String
  regionFilter : Option String
  unknownKeys : List (String × String)
deriving Repr

/-- The `update-profile` handler (part_001:767-777): field-by-field
validation — `name` is truncated/trimmed with fallback to the old name,
`gender` must be `male`/`female` (else reset to null), `lookingFor` must be
`all`/`male`/`female` (else reset to `'all'`), `regionFilter` is taken as-is
with `''` coerced to null.  Keys other than these four are ignored and the
request never fails as a whole. -/
def updateProfile (u : User) (d : ProfilePatch) : User :=
  let u1 := match d.name with
    | some n =>
      if n = "" then u
      else
        let t := jsSliceTrim 20 n
        { u with name := if t = "" then u.name else t }
    | none => u
  let u2 := match d.gender with
    | some g =>
      if g = "" then u1
      else { u1 with gender := if g = "male" ∨ g = "female" then some g else none }
    | none => u1
  let u3 := match d.lookingFor with
    | some lf =>
      { u2 with lookingFor := if lf = "all" ∨ lf = "male" ∨ lf = "female" then lf else "all" }
    | none => u2
  match d.regionFilter with
  | some rf => { u3 with regionFilter := if rf = "" then none else some rf }
  | none => u3

/-- The bidirectional partner-link invariant of the spec (§3 invariant 1):
a session is in a call iff its partner link is set, and the linked partner
exists and points back. -/
def PartnerInvariant (users : String → Option User) : Prop :=
  ∀ a u, users a = some u →
    (u.inCall = true ↔ ∃ p, u.partnerId = some p) ∧
    (∀ p, u.partnerId = some p → ∃ v, users p = some v ∧ v.partnerId = some a)

end BrownTv

namespace LiveConnect

/-- A user record of the LiveConnect server in `src/unnamed/part_001`
(first half, lines 272-282), restricted to the modelled fields. -/
structure User where
  name : String
  inCall : Bool
  partnerId : Option String
  roomId : Option String
  searching : Bool
deriving DecidableEq, Repr

/-- LiveConnect server state: the `users` map, the single `waitingQueue`,
and the `rooms` map (`roomId ↦ (user1, user2)`). -/
structure State where
  users : String → Option User
  waitingQueue : List String
  rooms : String → Option (String × String)

/-- The per-entry acceptance test of `findMatch`'s scan loop
(part_001:189-191): the entry is not the requester, still exists, is not in a
call, and is searching. -/
def waitingOk (s : State) (socketId matchId : String) : Bool :=
  if matchId = socketId then false
  else
    match s.users matchId with
    | some matchUser => !matchUser.inCall && matchUser.searching
    | none => false

/-- The scan loop of `findMatch` (part_001:187-196): the first acceptable
queue entry is spliced out of the queue and returned. -/
def scanWaiting (s : State) (socketId : String) :
    List String → Option (String × List String)
  | [] => none
  | matchId :: rest =>
    if waitingOk s socketId matchId then some (matchId, rest)
    else
      match scanWaiting s socketId rest with
      | some (found, rest') => some (found, matchId :: rest')
      | none => none

/-- `findMatch` (part_001:182-198). -/
def findMatch (s : State) (socketId : String) : Option (String × List String) :=
  match s.users socketId with
  | none => none
  | some _ => scanWaiting s socketId s.waitingQueue

/-- `createRoom` (part_001:200-226): record the room, and if both users
exist, bind them to each other and to the room. -/
def createRoom (s : State) (user1Id user2Id roomId : String) : State :=
  let rooms' := fun r => if r = roomId then some (user1Id, user2Id) else s.rooms r
  match s.users user1Id, s.users user2Id with
  | some a, some b =>
    let a' := { a with inCall := true, partnerId := some user2Id,
                       roomId := some roomId, searching := false }
    let b' := { b with inCall := true, partnerId := some user1Id,
                       roomId := some roomId, searching := false }
    { s with rooms := rooms', users := mapSet (mapSet s.users user1Id a') user2Id b' }
  | _, _ => { s with rooms := rooms' }

/-- Events emitted by the modelled LiveConnect handlers. -/
inductive Event
  | matchFound (target : String) (isInitiator : Bool)
  | searchingEvent (target : String)
deriving DecidableEq, Repr

/-- The `find-match` handler (part_001:291-328): ignored for a missing,
already-searching or in-call user; otherwise mark searching, scan the queue,
and either create the room — the requesting socket's `match-found` carries
`isInitiator: true` and the queued candidate's carries `false` — or append
the requester to the queue (if absent) and acknowledge with `searching`.
The fresh `roomId` (a uuid in the source) is passed in explicitly. -/
def findMatchHandler (s : State) (socketId roomId : String) : State × List Event :=
  match s.users socketId with
  | none => (s, [])
  | some user =>
    if user.searching || user.inCall then (s, [])
    else
      let s0 : State := { s with users := mapSet s.users socketId { user with searching := true } }
      match findMatch s0 socketId with
      | some (matchId, q') =>
        let s1 := { s0 with waitingQueue := q' }
        (createRoom s1 socketId matchId roomId,
         [Event.matchFound socketId true, Event.matchFound matchId false])
      | none =>
        let s1 := if socketId ∈ s0.waitingQueue then s0
          else { s0 with waitingQueue := s0.waitingQueue ++ [socketId] }
        (s1, [Event.searchingEvent socketId])

/-- The `chat-message` handler (part_001:411-424): only relays when the
sender is bound; the text is `String(data.message).slice(0, 1000).trim()` and
an empty-after-trim message is dropped. -/
def chatMessageHandler (s : State) (socketId : String) (message : String) :
    Option (String × String) :=
  match s.users socketId with
  | none => none
  | some user =>
    match user.partnerId with
    | none => none
    | some pid =>
      let msg := jsSliceTrim 1000 message
      if msg = "" then none else some (pid, msg)

end LiveConnect

/-- Modelled from the spec: "candidate must satisfy requester's filters"
for the gender-interest filter — the filter owner accepts everyone
(`lookingFor = 'all'`) or the other side's gender equals the filter. -/
def specGenderSatisfied (filterOwner other : BrownTv.User) : Bool :=
  filterOwner.lookingFor = "all" || other.gender = some filterOwner.lookingFor

/-- Modelled from the spec: the region filter — the filter owner has no
region filter or the other side's region equals it. -/
def specRegionSatisfied (filterOwner other : BrownTv.User) : Bool :=
  match filterOwner.regionFilter with
  | none => true
  | some rf => other.region = rf

/-- Modelled from the spec: the "bidirectional filter check" of §4.3 —
"candidate must satisfy requester's filters AND requester must satisfy
candidate's filters (gender-interest, region, ... and mutual block list —
neither has blocked the other)". -/
def specBidirectionalCompatible (requester candidate : BrownTv.User)
    (requesterBlocked candidateBlocked : List String)
    (requesterId candidateId : String) : Bool :=
  specGenderSatisfied requester candidate && specGenderSatisfied candidate requester &&
  specRegionSatisfied requester candidate && specRegionSatisfied candidate requester &&
  !(requesterBlocked.contains candidateId) && !(candidateBlocked.contains requesterId)

/-- Example requester for the `findMatch` fallback scenario: a male user
searching for men. -/
def c1Requester : BrownTv.User :=
  { name := "r", gender := some "male", lookingFor := "male", regionFilter := none,
    region := "europe", inCall := false, partnerId := none, searching := true,
    callStartTime := none, totalCallTime := 0 }

/-- Example candidate: unset gender (hence queued in the `'all'` queue) and
searching for women only. -/
def c1Candidate : BrownTv.User :=
  { name := "c", gender := none, lookingFor := "female", regionFilter := none,
    region := "europe", inCall := false, partnerId := none, searching := true,
    callStartTime := none, totalCallTime := 0 }

/-- Concrete BrownTV state: the male queue is empty and "c" waits in the
`'all'` queue. -/
def c1State : BrownTv.State :=
  { users := fun i => if i = "r" then some c1Requester
             else if i = "c" then some c1Candidate else none,
    queues := { all := ["c"], male := [], female := [] },
    blocked := fun _ => [] }

/-- Example users for the `createMatch` block-list scenario. -/
def c3User1 : BrownTv.User :=
  { name := "a", gender := some "male", lookingFor := "all", regionFilter := none,
    region := "europe", inCall := false, partnerId := none, searching := true,
    callStartTime := none, totalCallTime := 0 }

def c3User2 : BrownTv.User :=
  { name := "b", gender := some "female", lookingFor := "all", regionFilter := none,
    region := "europe", inCall := false, partnerId := none, searching := true,
    callStartTime := none, totalCallTime := 0 }

/-- Concrete BrownTV state in which "a" has blocked "b". -/
def c3State : BrownTv.State :=
  { users := fun i => if i = "a" then some c3User1
             else if i = "b" then some c3User2 else none,
    queues := ⟨[], [], []⟩,
    blocked := fun i => if i = "a" then ["b"] else [] }

/-- A bound pair of `src/server.js` profiles ("A" ↔ "B"). -/
def c2ProfileA : ServerJs.Profile :=
  { name := "A", gender := none, lookingFor := "all", blocked := [],
    inCall := true, partnerId := some "B", isOnline := true, totalCalls := 1 }

def c2ProfileB : ServerJs.Profile :=
  { name := "B", gender := none, lookingFor := "all", blocked := [],
    inCall := true, partnerId := some "A", isOnline := true, totalCalls := 1 }

/-- Concrete `src/server.js` state holding the bound pair "A" ↔ "B". -/
def c2State : ServerJs.State :=
  { profiles := fun i => if i = "A" then some c2ProfileA
                else if i = "B" then some c2ProfileB else none,
    queues := ⟨[], [], [], []⟩ }

/-- The partner-link invariant for `src/server.js` profiles (spec §3
invariant 1). -/
def ServerJsPartnerInvariant (profiles : String → Option ServerJs.Profile) : Prop :=
  ∀ a u, profiles a = some u →
    (u.inCall = true ↔ ∃ p, u.partnerId = some p) ∧
    (∀ p, u.partnerId = some p → ∃ v, profiles p = some v ∧ v.partnerId = some a)

/-- A `src/server.js` profile bound to partner "b", used for the chat-relay
scenario. -/
def c6Profile : ServerJs.Profile :=
  { name := "a", gender := none, lookingFor := "all", blocked := [],
    inCall := true, partnerId := some "b", isOnline := true, totalCalls := 1 }

/-- Concrete `src/server.js` state for the chat-relay scenario. -/
def c6State : ServerJs.State :=
  { profiles := fun i => if i = "a" then some c6Profile else none,
    queues := ⟨[], [], [], []⟩ }

/-- A `src/server.js` profile with a validly set gender, used for the
`update-profile` scenario. -/
def c8Profile : ServerJs.Profile :=
  { name := "x", gender := some "male", lookingFor := "all", blocked := [],
    inCall := false, partnerId := none, isOnline := true, totalCalls := 0 }

/-- A bound pair of BrownTV users ("A" ↔ "B") for witness states. -/
def bUserA : BrownTv.User :=
  { name := "A", gender := some "male", lookingFor := "all", regionFilter := none,
    region := "europe", inCall := true, partnerId := some "B", searching := false,
    callStartTime := some 5, totalCallTime := 0 }

def bUserB : BrownTv.User :=
  { name := "B", gender := some "female", lookingFor := "all", regionFilter := none,
    region := "europe", inCall := true, partnerId := some "A", searching := false,
    callStartTime := some 5, totalCallTime := 0 }

/-- Concrete BrownTV state holding the bound pair "A" ↔ "B". -/
def bPairState : BrownTv.State :=
  { users := fun i => if i = "A" then some bUserA
             else if i = "B" then some bUserB else none,
    queues := ⟨[], [], []⟩,
    blocked := fun _ => [] }

/-- An empty LiveConnect state, used to instantiate universally quantified
theorems at a concrete input. -/
def lcEmptyState : LiveConnect.State :=
  { users := fun _ => none, waitingQueue := [], rooms := fun _ => none }

/-- Profiles for a legal `src/server.js` bind: both exist, neither is in a
call, neither blocks the other. -/
def c7ProfileA : ServerJs.Profile :=
  { name := "a", gender := none, lookingFor := "all", blocked := [],
    inCall := false, partnerId := none, isOnline := true, totalCalls := 0 }

def c7ProfileB : ServerJs.Profile :=
  { name := "b", gender := none, lookingFor := "all", blocked := [],
    inCall := false, partnerId := none, isOnline := true, totalCalls := 0 }

def c7State : ServerJs.State :=
  { profiles := fun i => if i = "a" then some c7ProfileA
                else if i = "b" then some c7ProfileB else none,
    queues := ⟨[], [], [], []⟩ }

/-- Profiles for a `src/server.js` bind blocked by a block-list entry. -/
def c3jProfileA : ServerJs.Profile :=
  { name := "a", gender := none, lookingFor := "all", blocked := ["b"],
    inCall := false, partnerId := none, isOnline := true, totalCalls := 0 }

def c3jProfileB : ServerJs.Profile :=
  { name := "b", gender := none, lookingFor := "all", blocked := [],
    inCall := false, partnerId := none, isOnline := true, totalCalls := 0 }

def c3jState : ServerJs.State :=
  { profiles := fun i => if i = "a" then some c3jProfileA
                else if i = "b" then some c3jProfileB else none,
    queues := ⟨[], [], [], []⟩ }

namespace ServerJs

/-- The fields of a `src/server.js` Redis user hash (`user:<id>`, written by
`hSet` at connect) that the matcher reads: `lookingFor`, `gender` and
`inCall`.  A missing hash is modelled as `none` (the `!candidateData` guard);
`inCall` models the `candidateData.inCall === 'true'` comparison. -/
structure StoredUser where
  gender : Option String
  lookingFor : String
  inCall : Bool
deriving DecidableEq, Repr

/-- The state the `MatchmakingSystem` matcher operates on: the Redis user
hashes and the four waiting queues. -/
structure MatchState where
  store : String → Option StoredUser
  queues : Queues

/-- `this.waitingUsers.get(key) || []` (src/server.js:92, 117, 140). -/
def getQueue (q : Queues) (key : String) : List String :=
  if key = "all" then q.all
  else if key = "male" then q.male
  else if key = "female" then q.female
  else if key = "random" then q.random
  else []

/-- Write back a queue after a splice; for a key that names no queue the
splice happened on the `|| []` temporary and the state is unchanged. -/
def setQueue (q : Queues) (key : String) (l : List String) : Queues :=
  if key = "all" then { q with all := l }
  else if key = "male" then { q with male := l }
  else if key = "female" then { q with female := l }
  else if key = "random" then { q with random := l }
  else q

/-- The per-candidate test of `findExactMatch`'s loop (src/server.js:94-107):
skip self, skip missing or in-call candidates, and accept when the
candidate's own preference (`lookingFor || 'all'`) is `'all'` or equals the
requester's gender.  No block-list or region check appears here. -/
def exactOk (st : String → Option StoredUser) (socketId : String)
    (userData : StoredUser) (candidateId : String) : Bool :=
  if candidateId = socketId then false
  else
    match st candidateId with
    | none => false
    | some cand =>
      if cand.inCall then false
      else
        let candidatePref := if cand.lookingFor = "" then "all" else cand.lookingFor
        if candidatePref = "all" then true
        else if userData.gender = some candidatePref then true
        else false

/-- The per-candidate test of `findReverseMatch` and `findRandomMatch`
(src/server.js:120-129, 142-152): skip self and missing or in-call
candidates, accept anyone else — no filter of any kind. -/
def availableOk (st : String → Option StoredUser) (socketId candidateId : String) : Bool :=
  if candidateId = socketId then false
  else
    match st candidateId with
    | none => false
    | some cand => !cand.inCall

/-- The scan loop of `findExactMatch`: first acceptable candidate is spliced
out and returned. -/
def scanExact (st : String → Option StoredUser) (socketId : String)
    (userData : StoredUser) : List String → Option (String × List String)
  | [] => none
  | candidateId :: rest =>
    if exactOk st socketId userData candidateId then some (candidateId, rest)
    else
      match scanExact st socketId userData rest with
      | some (found, rest') => some (found, candidateId :: rest')
      | none => none

/-- The scan loop of `findReverseMatch` / `findRandomMatch`. -/
def scanAvailable (st : String → Option StoredUser) (socketId : String) :
    List String → Option (String × List String)
  | [] => none
  | candidateId :: rest =>
    if availableOk st socketId candidateId then some (candidateId, rest)
    else
      match scanAvailable st socketId rest with
      | some (found, rest') => some (found, candidateId :: rest')
      | none => none

/-- `findExactMatch` (src/server.js:91-111). -/
def findExactMatch (s : MatchState) (socketId : String) (userData : StoredUser)
    (preferredGender : String) : Option String × Queues :=
  match scanExact s.store socketId userData (getQueue s.queues preferredGender) with
  | some (m, l) => (some m, setQueue s.queues preferredGender l)
  | none => (none, s.queues)

/-- `findReverseMatch` (src/server.js:113-133): scans the queue named by the
requester's own gender with no compatibility check at all. -/
def findReverseMatch (s : MatchState) (socketId : String) (userData : StoredUser) :
    Option String × Queues :=
  match userData.gender with
  | none => (none, s.queues)
  | some userGender =>
    match scanAvailable s.store socketId (getQueue s.queues userGender) with
    | some (m, l) => (some m, setQueue s.queues userGender l)
    | none => (none, s.queues)

/-- `findRandomMatch` (src/server.js:135-156): tries the queues
`all, male, female, random` in order and accepts any available user. -/
def findRandomMatch (s : MatchState) (socketId : String) : Option String × Queues :=
  match scanAvailable s.store socketId s.queues.all with
  | some (m, l) => (some m, { s.queues with all := l })
  | none =>
    match scanAvailable s.store socketId s.queues.male with
    | some (m, l) => (some m, { s.queues with male := l })
    | none =>
      match scanAvailable s.store socketId s.queues.female with
      | some (m, l) => (some m, { s.queues with female := l })
      | none =>
        match scanAvailable s.store socketId s.queues.random with
        | some (m, l) => (some m, { s.queues with random := l })
        | none => (none, s.queues)

/-- `findMatch` (src/server.js:70-89): exact match on the preferred queue,
then — only for `'all'` seekers — the reverse match, then the random match.
A failed step leaves the queues untouched. -/
def findMatch (s : MatchState) (socketId : String) : Option String × Queues :=
  match s.store socketId with
  | none => (none, s.queues)
  | some userData =>
    let preferredGender := if userData.lookingFor = "" then "all" else userData.lookingFor
    match findExactMatch s socketId userData preferredGender with
    | (some m, q) => (some m, q)
    | (none, _) =>
      if preferredGender = "all" then
        match findReverseMatch s socketId userData with
        | (some m, q) => (some m, q)
        | (none, _) => findRandomMatch s socketId
      else findRandomMatch s socketId

end ServerJs

/-- Modelled from the spec: the gender-interest direction of §4.3's
bidirectional filter check, stated over the server.js stored user data — the
filter owner accepts everyone (`lookingFor = 'all'`) or the other side's
gender equals the filter. -/
def specStoredGenderSatisfied (filterOwner other : ServerJs.StoredUser) : Bool :=
  filterOwner.lookingFor = "all" || other.gender = some filterOwner.lookingFor

/-- Stored requester for the server.js matcher scenario: a male user looking
for women. -/
def c1jStoredR : ServerJs.StoredUser :=
  { gender := some "male", lookingFor := "female", inCall := false }

/-- Stored candidate: also a male user looking for women, waiting in the
`'all'` queue. -/
def c1jStoredC : ServerJs.StoredUser :=
  { gender := some "male", lookingFor := "female", inCall := false }

/-- Concrete server.js matcher state: the `female` queue is empty and "c"
waits in the `'all'` queue. -/
def c1jMatchState : ServerJs.MatchState :=
  { store := fun i => if i = "r" then some c1jStoredR
             else if i = "c" then some c1jStoredC else none,
    queues := ⟨["c"], [], [], []⟩ }


theorem occurrences_remove_self (socketId : String) (q : ServerJs.Queues)
    (h : ServerJs.occurrences socketId q ≤ 1) :
    ServerJs.occurrences socketId (ServerJs.removeUserFromAllQueues socketId q) = 0 := by
  simp only [ServerJs.occurrences, ServerJs.removeUserFromAllQueues,
    List.count_erase_self] at h ⊢
  omega

theorem occurrences_remove_other {socketId other : String} (h : socketId ≠ other)
    (q : ServerJs.Queues) :
    ServerJs.occurrences socketId (ServerJs.removeUserFromAllQueues other q) =
      ServerJs.occurrences socketId q := by
  simp only [ServerJs.occurrences, ServerJs.removeUserFromAllQueues,
    List.count_erase_of_ne h]

theorem occurrences_remove_le (socketId other : String) (q : ServerJs.Queues) :
    ServerJs.occurrences socketId (ServerJs.removeUserFromAllQueues other q) ≤
      ServerJs.occurrences socketId q := by
  by_cases h : socketId = other
  · subst h
    simp only [ServerJs.occurrences, ServerJs.removeUserFromAllQueues,
      List.count_erase_self]
    omega
  · rw [occurrences_remove_other h]

theorem occurrences_push_self (key socketId : String) (q : ServerJs.Queues) :
    ServerJs.occurrences socketId (ServerJs.pushQueue key socketId q) =
      ServerJs.occurrences socketId q + 1 := by
  rw [ServerJs.pushQueue]
  split
  · simp [ServerJs.occurrences, List.count_append]; omega
  · split
    · simp [ServerJs.occurrences, List.count_append]; omega
    · split
      · simp [ServerJs.occurrences, List.count_append]; omega
      · simp [ServerJs.occurrences, List.count_append]; omega

theorem occurrences_push_other {socketId other : String} (h : socketId ≠ other)
    (key : String) (q : ServerJs.Queues) :
    ServerJs.occurrences socketId (ServerJs.pushQueue key other q) =
      ServerJs.occurrences socketId q := by
  rw [ServerJs.pushQueue]
  split
  · simp [ServerJs.occurrences, List.count_append, List.count_singleton', h]
  · split
    · simp [ServerJs.occurrences, List.count_append, List.count_singleton', h]
    · split
      · simp [ServerJs.occurrences, List.count_append, List.count_singleton', h]
      · simp [ServerJs.occurrences, List.count_append, List.count_singleton', h]

theorem applyQOp_preserves (q : ServerJs.Queues)
    (h : ∀ j, ServerJs.occurrences j q ≤ 1) (op : ServerJs.QOp) :
    ∀ j, ServerJs.occurrences j (ServerJs.applyQOp q op) ≤ 1 := by
  intro j
  cases op with
  | enqueue socketId lookingFor =>
    simp only [ServerJs.applyQOp, ServerJs.addUserToQueue]
    by_cases hj : j = socketId
    · subst hj
      rw [occurrences_push_self, occurrences_remove_self j q (h j)]
    · rw [occurrences_push_other hj, occurrences_remove_other hj]
      exact h j
  | dequeueAll socketId =>
    exact le_trans (occurrences_remove_le j socketId q) (h j)
  | bindPair id1 id2 =>
    refine le_trans (occurrences_remove_le j id2 _) ?_
    exact le_trans (occurrences_remove_le j id1 q) (h j)

theorem foldl_applyQOp_preserves (ops : List ServerJs.QOp) :
    ∀ (q : ServerJs.Queues), (∀ j, ServerJs.occurrences j q ≤ 1) →
      ∀ j, ServerJs.occurrences j (ops.foldl ServerJs.applyQOp q) ≤ 1 := by
  induction ops with
  | nil => intro q h j; exact h j
  | cons op rest ih =>
    intro q h j
    exact ih (ServerJs.applyQOp q op) (applyQOp_preserves q h op) j

/-- C4: the server.js enqueue (`addUserToQueue`) removes the user's id from
every queue before appending it to the target queue, so after any sequence of
enqueue / dequeue-all / bind operations starting from the empty queue set,
every session id occurs at most once across all four queues — hence it is in
at most one queue and never twice in the same queue. -/
theorem c4_queue_exclusivity (ops : List ServerJs.QOp) (j : String) :
    ServerJs.occurrences j (ServerJs.runQOps ops) ≤ 1 := by
  refine foldl_applyQOp_preserves ops ServerJs.emptyQueues ?_ j
  intro j'
  simp [ServerJs.occurrences, ServerJs.emptyQueues]

theorem scanQueue_ok (s : BrownTv.State) (user : BrownTv.User) (socketId : String)
    (g : Bool) :
    ∀ (l : List String) (m : String) (rest : List String),
      BrownTv.scanQueue s user socketId g l = some (m, rest) →
      BrownTv.candidateOk s user socketId g m = true := by
  intro l
  induction l with
  | nil => intro m rest h; simp [BrownTv.scanQueue] at h
  | cons hd tl ih =>
    intro m rest h
    by_cases hok : BrownTv.candidateOk s user socketId g hd = true
    · rw [BrownTv.scanQueue, if_pos hok] at h
      simp only [Option.some.injEq, Prod.mk.injEq] at h
      rw [← h.1]
      exact hok
    · rw [BrownTv.scanQueue, if_neg hok] at h
      cases hrec : BrownTv.scanQueue s user socketId g tl with
      | none => rw [hrec] at h; cases h
      | some p =>
        obtain ⟨found, rest'⟩ := p
        rw [hrec] at h
        simp only [Option.some.injEq, Prod.mk.injEq] at h
        rw [← h.1]
        exact ih found rest' hrec

theorem candidateOk_elim {s : BrownTv.State} {user : BrownTv.User} {socketId : String}
    {g : Bool} {m : String} (h : BrownTv.candidateOk s user socketId g m = true) :
    m ≠ socketId ∧ ∃ mu, s.users m = some mu ∧ mu.inCall = false ∧
      m ∉ s.blocked socketId ∧ socketId ∉ s.blocked m ∧
      BrownTv.regionReject user.regionFilter mu.region = false ∧
      BrownTv.regionReject mu.regionFilter user.region = false := by
  by_cases h1 : m = socketId
  · rw [BrownTv.candidateOk, if_pos h1] at h; cases h
  · refine ⟨h1, ?_⟩
    rw [BrownTv.candidateOk, if_neg h1] at h
    cases hu : s.users m with
    | none => rw [hu] at h; cases h
    | some mu =>
      rw [hu] at h
      refine ⟨mu, rfl, ?_⟩
      by_cases h2 : mu.inCall = true
      · simp [h2] at h
      · by_cases h3 : m ∈ s.blocked socketId ∨ socketId ∈ s.blocked m
        · simp [h2, h3] at h
        · by_cases h4 : BrownTv.regionReject user.regionFilter mu.region = true
          · simp [h2, h3, h4] at h
          · by_cases h5 : BrownTv.regionReject mu.regionFilter user.region = true
            · simp [h2, h3, h4, h5] at h
            · push_neg at h3
              exact ⟨by simpa using h2, h3.1, h3.2, by simpa using h4, by simpa using h5⟩

theorem findMatch_some {s : BrownTv.State} {socketId m : String} {q' : BrownTv.Queues}
    (h : BrownTv.findMatch s socketId = (some m, q')) :
    ∃ user g, s.users socketId = some user ∧
      BrownTv.candidateOk s user socketId g m = true := by
  rw [BrownTv.findMatch] at h
  split at h
  · simp at h
  · rename_i user hu
    refine ⟨user, ?_⟩
    split at h
    · split at h
      · rename_i f r hscan
        simp only [Prod.mk.injEq, Option.some.injEq] at h
        exact ⟨true, hu, h.1 ▸ scanQueue_ok s user socketId true _ f r hscan⟩
      · rename_i hscan
        split at h
        · rename_i f r hscan2
          simp only [Prod.mk.injEq, Option.some.injEq] at h
          exact ⟨false, hu, h.1 ▸ scanQueue_ok s user socketId false _ f r hscan2⟩
        · simp at h
    · split at h
      · split at h
        · rename_i f r hscan
          simp only [Prod.mk.injEq, Option.some.injEq] at h
          exact ⟨true, hu, h.1 ▸ scanQueue_ok s user socketId true _ f r hscan⟩
        · rename_i hscan
          split at h
          · rename_i f r hscan2
            simp only [Prod.mk.injEq, Option.some.injEq] at h
            exact ⟨false, hu, h.1 ▸ scanQueue_ok s user socketId false _ f r hscan2⟩
          · simp at h
      · split at h
        · rename_i f r hscan
          simp only [Prod.mk.injEq, Option.some.injEq] at h
          exact ⟨true, hu, h.1 ▸ scanQueue_ok s user socketId true _ f r hscan⟩
        · simp at h

/-- C3 (amended): in `src/server.js`, `createMatch(a, b)` fails with no state
change exactly when either session is missing, either is already in a call,
or either party is on the other's block list (re-checked at bind time), and
on success it marks both sides in-call with mutual partner links.  The
`createMatch` of the part_000 / part_001 BrownTV variants instead checks only
that both sessions exist (see the counterexample). -/
theorem c3_createMatch_guards (s : ServerJs.State) (a b : String) :
    ((ServerJs.createMatch s a b).1 = false → (ServerJs.createMatch s a b).2.1 = s) ∧
    ((s.profiles a = none ∨ s.profiles b = none) → (ServerJs.createMatch s a b).1 = false) ∧
    (∀ p1 p2, s.profiles a = some p1 → s.profiles b = some p2 →
      ((ServerJs.createMatch s a b).1 = false ↔
        p1.inCall = true ∨ p2.inCall = true ∨ b ∈ p1.blocked ∨ a ∈ p2.blocked)) ∧
    ((ServerJs.createMatch s a b).1 = true →
      ∃ q1 q2, (ServerJs.createMatch s a b).2.1.profiles a = some q1 ∧
        q1.inCall = true ∧ q1.partnerId = some b ∧
        (ServerJs.createMatch s a b).2.1.profiles b = some q2 ∧
        q2.inCall = true ∧ q2.partnerId = some a) := by
  rcases hA : s.profiles a with _ | p1
  · refine ⟨?_, ?_, ?_, ?_⟩
    · intro _; simp [ServerJs.createMatch, hA]
    · intro _; simp [ServerJs.createMatch, hA]
    · intro p1 p2 h1 _; cases h1
    · intro h; simp [ServerJs.createMatch, hA] at h
  · rcases hB : s.profiles b with _ | p2
    · refine ⟨?_, ?_, ?_, ?_⟩
      · intro _; simp [ServerJs.createMatch, hA, hB]
      · intro _; simp [ServerJs.createMatch, hA, hB]
      · intro q1 q2 _ h2; cases h2
      · intro h; simp [ServerJs.createMatch, hA, hB] at h
    · by_cases hCall : (p1.inCall || p2.inCall) = true
      · have hR : ServerJs.createMatch s a b = (false, s, []) := by
          simp [ServerJs.createMatch, hA, hB, hCall]
        refine ⟨fun _ => by rw [hR], fun _ => by rw [hR], ?_, ?_⟩
        · intro q1 q2 h1 h2
          injection h1 with h1; injection h2 with h2
          subst h1; subst h2
          refine iff_of_true (by rw [hR]) ?_
          rcases (show p1.inCall = true ∨ p2.inCall = true by simpa using hCall) with h | h
          · exact Or.inl h
          · exact Or.inr (Or.inl h)
        · intro h; rw [hR] at h; cases h
      · by_cases hBlk : b ∈ p1.blocked ∨ a ∈ p2.blocked
        · have hR : ServerJs.createMatch s a b = (false, s, []) := by
            simp [ServerJs.createMatch, hA, hB, hCall, hBlk]
          refine ⟨fun _ => by rw [hR], fun _ => by rw [hR], ?_, ?_⟩
          · intro q1 q2 h1 h2
            injection h1 with h1; injection h2 with h2
            subst h1; subst h2
            exact iff_of_true (by rw [hR]) (Or.inr (Or.inr hBlk))
          · intro h; rw [hR] at h; cases h
        · have hnc : ¬(p1.inCall = true ∨ p2.inCall = true ∨ b ∈ p1.blocked ∨ a ∈ p2.blocked) := by
            intro hc
            rcases hc with h | h | h | h
            · exact hCall (by simp [h])
            · exact hCall (by simp [h])
            · exact hBlk (Or.inl h)
            · exact hBlk (Or.inr h)
          refine ⟨?_, ?_, ?_, ?_⟩
          · intro h; simp [ServerJs.createMatch, hA, hB, hCall, hBlk] at h
          · rintro (h | h)
            · cases h
            · cases h
          · intro q1 q2 h1 h2
            injection h1 with h1; injection h2 with h2
            subst h1; subst h2
            refine iff_of_false ?_ hnc
            simp [ServerJs.createMatch, hA, hB, hCall, hBlk]
          · intro _
            by_cases hab : a = b
            · subst hab
              rw [hA] at hB; injection hB with hB; subst hB
              obtain ⟨hc1, hc2⟩ : p1.inCall = false ∧ p1.inCall = false := by simpa using hCall
              have hb1 : a ∉ p1.blocked := fun hx => hBlk (Or.inl hx)
              refine ⟨{ p1 with inCall := true, partnerId := some a, totalCalls := p1.totalCalls + 1 }, { p1 with inCall := true, partnerId := some a, totalCalls := p1.totalCalls + 1 }, ?_⟩
              simp [ServerJs.createMatch, hA, hc1, hb1, mapSet]
            · obtain ⟨hc1, hc2⟩ : p1.inCall = false ∧ p2.inCall = false := by simpa using hCall
              have hb1 : b ∉ p1.blocked := fun hx => hBlk (Or.inl hx)
              have hb2 : a ∉ p2.blocked := fun hx => hBlk (Or.inr hx)
              refine ⟨{ p1 with inCall := true, partnerId := some b, totalCalls := p1.totalCalls + 1 }, { p2 with inCall := true, partnerId := some a, totalCalls := p2.totalCalls + 1 }, ?_⟩
              simp [ServerJs.createMatch, hA, hB, hc1, hc2, hb1, hb2, mapSet, hab]

/-- C3 witness: the amended theorem applied at the concrete state `c3jState`,
in which "a" blocks "b": the bind fails and the state is unchanged. -/
theorem c3_witness :
    (ServerJs.createMatch c3jState "a" "b").1 = false ∧
    (ServerJs.createMatch c3jState "a" "b").2.1 = c3jState := by
  have h := c3_createMatch_guards c3jState "a" "b"
  have hfalse : (ServerJs.createMatch c3jState "a" "b").1 = false :=
    (h.2.2.1 c3jProfileA c3jProfileB (by decide) (by decide)).mpr
      (Or.inr (Or.inr (Or.inl (by decide))))
  exact ⟨hfalse, h.1 hfalse⟩

/-- C3 counterexample: the BrownTV `createMatch` (part_001:684-705) succeeds
and binds the pair even though "a" has blocked "b" — there is no block-list
or in-call re-check at bind time in that variant, so the claim's failure
condition does not hold of it. -/
theorem c3_counterexample :
    "b" ∈ c3State.blocked "a" ∧
    (BrownTv.createMatch 0 c3State "a" "b").1 = true ∧
    (BrownTv.createMatch 0 c3State "a" "b").2.users "a" =
      some { c3User1 with inCall := true, partnerId := some "b", searching := false, callStartTime := some 0 } ∧
    (BrownTv.createMatch 0 c3State "a" "b").2.users "b" =
      some { c3User2 with inCall := true, partnerId := some "a", searching := false, callStartTime := some 0 } := by decide

theorem mapSet_eq_self {α : Type} (f : String → Option α) (k : String) (v : α)
    (h : f k = some v) : mapSet f k v = f := by
  funext x
  by_cases hx : x = k
  · subst hx; rw [mapSet, if_pos rfl, h]
  · rw [mapSet, if_neg hx]

theorem endCall_missing (now : Nat) (s : BrownTv.State) (socketId : String)
    (h : s.users socketId = none) : BrownTv.endCall now s socketId = (none, s) := by
  rw [BrownTv.endCall, h]

theorem endCall_unbound (now : Nat) (s : BrownTv.State) (socketId : String)
    (h : ∀ u, s.users socketId = some u →
      u.partnerId = none ∧ u.inCall = false ∧ u.callStartTime = none) :
    BrownTv.endCall now s socketId = (none, s) := by
  cases hu : s.users socketId with
  | none => exact endCall_missing now s socketId hu
  | some u =>
    obtain ⟨h1, h2, h3⟩ := h u hu
    have hrec : ({ u with inCall := false, partnerId := none, callStartTime := none, totalCallTime := u.totalCallTime + 0 } : BrownTv.User) = u := by
      cases u; simp_all
    simp only [BrownTv.endCall, hu, h1, h3]
    rw [hrec, mapSet_eq_self s.users socketId u hu]

theorem endCall_result_unbound (now : Nat) (s : BrownTv.State) (socketId : String) :
    ∀ w, ((BrownTv.endCall now s socketId).2).users socketId = some w →
      w.partnerId = none ∧ w.inCall = false ∧ w.callStartTime = none := by
  intro w hw
  cases hu : s.users socketId with
  | none =>
    rw [endCall_missing now s socketId hu] at hw
    have hw' : s.users socketId = some w := hw
    rw [hu] at hw'; cases hw'
  | some user =>
    cases hp : user.partnerId with
    | none =>
      simp only [BrownTv.endCall, hu, hp] at hw
      simp [mapSet] at hw
      subst hw; exact ⟨rfl, rfl, rfl⟩
    | some pid =>
      simp only [BrownTv.endCall, hu, hp] at hw
      split at hw
      · simp [mapSet] at hw
        subst hw; exact ⟨rfl, rfl, rfl⟩
      · by_cases hip : socketId = pid
        · subst hip
          simp [mapSet] at hw
          subst hw; exact ⟨rfl, rfl, rfl⟩
        · simp [mapSet, hip] at hw
          subst hw; exact ⟨rfl, rfl, rfl⟩

theorem endCall_bound (now : Nat) (s : BrownTv.State) (socketId : String)
    (u : BrownTv.User) (p : String) (hu : s.users socketId = some u)
    (hp : u.partnerId = some p) :
    (BrownTv.endCall now s socketId).1 = some p ∧
    (∃ u', (BrownTv.endCall now s socketId).2.users socketId = some u' ∧
       u'.inCall = false ∧ u'.partnerId = none) ∧
    (∀ pu, s.users p = some pu → ∃ pu', (BrownTv.endCall now s socketId).2.users p = some pu' ∧
       pu'.inCall = false ∧ pu'.partnerId = none) := by
  simp only [BrownTv.endCall, hu, hp]
  split
  · rename_i hq
    refine ⟨rfl, ⟨{ u with inCall := false, partnerId := none, callStartTime := none, totalCallTime := u.totalCallTime + (match u.callStartTime with | some t => now - t | none => 0) }, by simp [mapSet], rfl, rfl⟩, ?_⟩
    intro pu hpu
    exfalso
    by_cases hip : p = socketId
    · rw [mapSet, if_pos hip] at hq; cases hq
    · rw [mapSet, if_neg hip] at hq
      rw [hq] at hpu; cases hpu
  · rename_i partner hq
    refine ⟨rfl, ?_, ?_⟩
    · by_cases hip : socketId = p
      · exact ⟨{ partner with inCall := false, partnerId := none, callStartTime := none, totalCallTime := partner.totalCallTime + (match u.callStartTime with | some t => now - t | none => 0) }, by simp [mapSet, hip], rfl, rfl⟩
      · exact ⟨{ u with inCall := false, partnerId := none, callStartTime := none, totalCallTime := u.totalCallTime + (match u.callStartTime with | some t => now - t | none => 0) }, by simp [mapSet, hip], rfl, rfl⟩
    · intro pu hpu
      exact ⟨{ partner with inCall := false, partnerId := none, callStartTime := none, totalCallTime := partner.totalCallTime + (match u.callStartTime with | some t => now - t | none => 0) }, by simp [mapSet], rfl, rfl⟩

/-- C5: the BrownTV `endCall` is idempotent — called on a session that is not
bound (no partner link, not in a call, no running call timestamp) it returns
no former partner and leaves the state unchanged; called twice in a row, the
second call is a no-op returning no former partner (so no duplicate
partner-left notification is sent); and a successful unbind clears the
partner link and the in-call flag on both sides and returns the former
partner. -/
theorem c5_endCall_idempotent (now now2 : Nat) (s : BrownTv.State) (socketId : String) :
    ((∀ u, s.users socketId = some u →
        u.partnerId = none ∧ u.inCall = false ∧ u.callStartTime = none) →
      BrownTv.endCall now s socketId = (none, s)) ∧
    (BrownTv.endCall now2 (BrownTv.endCall now s socketId).2 socketId =
      (none, (BrownTv.endCall now s socketId).2)) ∧
    (∀ u p, s.users socketId = some u → u.partnerId = some p →
      (BrownTv.endCall now s socketId).1 = some p ∧
      (∃ u', (BrownTv.endCall now s socketId).2.users socketId = some u' ∧
         u'.inCall = false ∧ u'.partnerId = none) ∧
      (∀ pu, s.users p = some pu →
         ∃ pu', (BrownTv.endCall now s socketId).2.users p = some pu' ∧
           pu'.inCall = false ∧ pu'.partnerId = none)) := by
  refine ⟨endCall_unbound now s socketId, ?_, ?_⟩
  · exact endCall_unbound now2 (BrownTv.endCall now s socketId).2 socketId
      (endCall_result_unbound now s socketId)
  · intro u p hu hp
    exact endCall_bound now s socketId u p hu hp

/-- C5 witness: applied to the bound pair "A" ↔ "B" of `bPairState`, a first
`endCall` returns "B" and clears both sides. -/
theorem c5_witness :
    (BrownTv.endCall 9 bPairState "A").1 = some "B" ∧
    (∃ u', (BrownTv.endCall 9 bPairState "A").2.users "A" = some u' ∧
       u'.inCall = false ∧ u'.partnerId = none) ∧
    (∃ pu', (BrownTv.endCall 9 bPairState "A").2.users "B" = some pu' ∧
       pu'.inCall = false ∧ pu'.partnerId = none) := by
  have h := (c5_endCall_idempotent 9 0 bPairState "A").2.2 bUserA "B" (by decide) (by decide)
  exact ⟨h.1, h.2.1, h.2.2 bUserB (by decide)⟩

theorem endCall_blocked_eq (now : Nat) (s : BrownTv.State) (socketId : String) :
    ((BrownTv.endCall now s socketId).2).blocked = s.blocked := by
  cases hu : s.users socketId with
  | none => rw [endCall_missing now s socketId hu]
  | some user =>
    cases hp : user.partnerId with
    | none => simp only [BrownTv.endCall, hu, hp]
    | some pid =>
      simp only [BrownTv.endCall, hu, hp]
      split <;> rfl

/-- C10: when a bound BrownTV user issues `block-user`, the partner's id is
appended to the blocker's block list, the call is torn down on both sides
(both reset to not-in-call with the partner link cleared), the former partner
is notified with `partner-left{reason:'blocked'}`, and the blocker receives
`user-blocked`. -/
theorem c10_blockUser_blocks_and_ends (now : Nat) (s : BrownTv.State) (socketId : String)
    (u : BrownTv.User) (p : String) (hu : s.users socketId = some u)
    (hp : u.partnerId = some p) :
    ((BrownTv.blockUserHandler now s socketId).1.blocked socketId =
       s.blocked socketId ++ [p]) ∧
    ((BrownTv.blockUserHandler now s socketId).2 =
       [BrownTv.Event.partnerLeft p "blocked", BrownTv.Event.userBlocked socketId]) ∧
    (∃ u', (BrownTv.blockUserHandler now s socketId).1.users socketId = some u' ∧
       u'.inCall = false ∧ u'.partnerId = none) ∧
    (∀ pu, s.users p = some pu →
       ∃ pu', (BrownTv.blockUserHandler now s socketId).1.users p = some pu' ∧
         pu'.inCall = false ∧ pu'.partnerId = none) := by
  have hb := endCall_bound now
    { s with blocked := fun x => if x = socketId then s.blocked socketId ++ [p] else s.blocked x }
    socketId u p hu hp
  simp only [BrownTv.blockUserHandler, hu, hp]
  refine ⟨?_, ?_, ?_, ?_⟩
  · rw [endCall_blocked_eq]
    simp
  · rw [hb.1]; rfl
  · exact hb.2.1
  · exact fun pu hpu => hb.2.2 pu hpu

/-- C10 witness: the theorem applied to the bound pair "A" ↔ "B" of
`bPairState`. -/
theorem c10_witness :
    ((BrownTv.blockUserHandler 7 bPairState "A").1.blocked "A" = [] ++ ["B"]) ∧
    ((BrownTv.blockUserHandler 7 bPairState "A").2 =
       [BrownTv.Event.partnerLeft "B" "blocked", BrownTv.Event.userBlocked "A"]) ∧
    (∃ pu', (BrownTv.blockUserHandler 7 bPairState "A").1.users "B" = some pu' ∧
       pu'.inCall = false ∧ pu'.partnerId = none) := by
  have h := c10_blockUser_blocks_and_ends 7 bPairState "A" bUserA "B" (by decide) (by decide)
  exact ⟨h.1, h.2.1, h.2.2.2 bUserB (by decide)⟩

/-- C9: a `find-match` request from a BrownTV user whose session is marked
in-call is ignored entirely: the handler leaves the whole state (queues,
users, block lists) unchanged and emits no event. -/
theorem c9_findMatch_ignored_when_inCall (now : Nat) (s : BrownTv.State)
    (socketId : String) (u : BrownTv.User) (hu : s.users socketId = some u)
    (hc : u.inCall = true) :
    BrownTv.findMatchHandler now s socketId = (s, []) := by
  simp [BrownTv.findMatchHandler, hu, hc]

/-- C9 witness: the in-call user "A" of `bPairState` issues `find-match` and
nothing happens. -/
theorem c9_witness : BrownTv.findMatchHandler 3 bPairState "A" = (bPairState, []) :=
  c9_findMatch_ignored_when_inCall 3 bPairState "A" bUserA (by decide) (by decide)

/-- C6 (amended): in the two part_001 handlers the relayed chat text equals
the input truncated to the variant's bound (500 characters in the BrownTV
handler, 1000 in the LiveConnect handler) and stripped of surrounding
whitespace, and a message that is empty after truncation and trimming is
dropped; the `src/server.js` handler instead forwards the message text
unmodified (see the counterexample). -/
theorem c6_chat_sanitized (s : BrownTv.State) (sL : LiveConnect.State)
    (socketId msg : String) :
    (∀ t out, BrownTv.chatMessageHandler s socketId msg = some (t, out) →
       out = jsSliceTrim 500 msg ∧ out ≠ "" ∧
       ∃ u, s.users socketId = some u ∧ u.partnerId = some t) ∧
    (jsSliceTrim 500 msg = "" → BrownTv.chatMessageHandler s socketId msg = none) ∧
    (∀ t out, LiveConnect.chatMessageHandler sL socketId msg = some (t, out) →
       out = jsSliceTrim 1000 msg ∧ out ≠ "") ∧
    (jsSliceTrim 1000 msg = "" → LiveConnect.chatMessageHandler sL socketId msg = none) := by
  refine ⟨?_, ?_, ?_, ?_⟩
  · intro t out h
    cases hu : s.users socketId with
    | none => simp [BrownTv.chatMessageHandler, hu] at h
    | some u =>
      cases hp : u.partnerId with
      | none => simp [BrownTv.chatMessageHandler, hu, hp] at h
      | some pid =>
        simp only [BrownTv.chatMessageHandler, hu, hp] at h
        by_cases he : jsSliceTrim 500 msg = ""
        · rw [if_pos he] at h; cases h
        · rw [if_neg he] at h
          simp only [Option.some.injEq, Prod.mk.injEq] at h
          exact ⟨h.2.symm, h.2 ▸ he, u, rfl, h.1 ▸ hp⟩
  · intro he
    cases hu : s.users socketId with
    | none => simp [BrownTv.chatMessageHandler, hu]
    | some u =>
      cases hp : u.partnerId with
      | none => simp [BrownTv.chatMessageHandler, hu, hp]
      | some pid => simp [BrownTv.chatMessageHandler, hu, hp, he]
  · intro t out h
    cases hu : sL.users socketId with
    | none => simp [LiveConnect.chatMessageHandler, hu] at h
    | some u =>
      cases hp : u.partnerId with
      | none => simp [LiveConnect.chatMessageHandler, hu, hp] at h
      | some pid =>
        simp only [LiveConnect.chatMessageHandler, hu, hp] at h
        by_cases he : jsSliceTrim 1000 msg = ""
        · rw [if_pos he] at h; cases h
        · rw [if_neg he] at h
          simp only [Option.some.injEq, Prod.mk.injEq] at h
          exact ⟨h.2.symm, h.2 ▸ he⟩
  · intro he
    cases hu : sL.users socketId with
    | none => simp [LiveConnect.chatMessageHandler, hu]
    | some u =>
      cases hp : u.partnerId with
      | none => simp [LiveConnect.chatMessageHandler, hu, hp]
      | some pid => simp [LiveConnect.chatMessageHandler, hu, hp, he]

/-- C6 witness: a bound BrownTV sender's message " hi " is forwarded as the
trimmed text "hi". -/
theorem c6_witness : ("hi" : String) = jsSliceTrim 500 " hi " ∧ ("hi" : String) ≠ "" := by
  have h := (c6_chat_sanitized bPairState lcEmptyState "A" " hi ").1 "B" "hi" (by decide)
  exact ⟨h.1, h.2.1⟩

/-- C6 counterexample: the `src/server.js` chat handler forwards the
whitespace-only message "   " to the partner as-is, although it is empty
after truncation and trimming and so should have been dropped (and in any
case should have been forwarded trimmed). -/
theorem c6_counterexample :
    ServerJs.chatMessageHandler c6State "a" "   " = some ("b", "   ") ∧
    jsSliceTrim 1000 "   " = "" ∧ jsSliceTrim 500 "   " = "" := by decide

/-- C8 (amended): the BrownTV `update-profile` handler ignores unknown keys,
validates enum fields field-by-field — an absent field is untouched, a valid
`gender` / `lookingFor` value overwrites, an invalid value resets the field
to its default (`null` / `'all'`) — and never rejects a request as a whole;
the `src/server.js` handler instead `Object.assign`s the raw patch with no
validation (see the counterexample). -/
theorem c8_updateProfile_validates (u : BrownTv.User) (d : BrownTv.ProfilePatch) :
    (∀ ks, BrownTv.updateProfile u { d with unknownKeys := ks } =
       BrownTv.updateProfile u d) ∧
    (∀ g, d.gender = some g → g ≠ "" →
       (BrownTv.updateProfile u d).gender =
         (if g = "male" ∨ g = "female" then some g else none)) ∧
    (d.gender = none → (BrownTv.updateProfile u d).gender = u.gender) ∧
    (∀ lf, d.lookingFor = some lf →
       (BrownTv.updateProfile u d).lookingFor =
         (if lf = "all" ∨ lf = "male" ∨ lf = "female" then lf else "all")) ∧
    (d.lookingFor = none → (BrownTv.updateProfile u d).lookingFor = u.lookingFor) := by
  obtain ⟨dn, dg, dlf, drf, dks⟩ := d
  refine ⟨fun ks => rfl, ?_, ?_, ?_, ?_⟩
  · intro g hg hne
    simp only at hg
    subst hg
    cases dn <;> cases dlf <;> cases drf <;>
      simp [BrownTv.updateProfile, hne] <;> split_ifs <;> rfl
  · intro hg
    simp only at hg
    subst hg
    cases dn <;> cases dlf <;> cases drf <;>
      simp [BrownTv.updateProfile] <;> split_ifs <;> rfl
  · intro lf hlf
    simp only at hlf
    subst hlf
    cases dn <;> cases dg <;> cases drf <;>
      simp [BrownTv.updateProfile] <;> split_ifs <;> rfl
  · intro hlf
    simp only at hlf
    subst hlf
    cases dn <;> cases dg <;> cases drf <;>
      simp [BrownTv.updateProfile] <;> split_ifs <;> rfl

/-- C8 witness: the invalid gender value "robot" sent to the BrownTV handler
resets the gender to null instead of storing it. -/
theorem c8_witness :
    (BrownTv.updateProfile bUserA
       { name := none, gender := some "robot", lookingFor := none,
         regionFilter := none, unknownKeys := [] }).gender = none := by
  have h := (c8_updateProfile_validates bUserA
    ⟨none, some "robot", none, none, []⟩).2.1 "robot" rfl (by decide)
  simpa using h

/-- C8 counterexample: the `src/server.js` `update-profile` handler
(`Object.assign`) overwrites the profile's gender with the invalid enum value
"robot" — the invalid value is neither ignored nor defaulted, contradicting
the claim for this handler. -/
theorem c8_counterexample :
    (ServerJs.updateProfileAssign c8Profile
       { gender := some "robot", lookingFor := none }).gender = some "robot" ∧
    c8Profile.gender = some "male" ∧
    (("robot" : String) ≠ "male" ∧ ("robot" : String) ≠ "female" ∧
     ("robot" : String) ≠ "all" ∧ ("robot" : String) ≠ "any") := by decide

theorem waitingOk_ne_self {s : LiveConnect.State} {socketId matchId : String}
    (h : LiveConnect.waitingOk s socketId matchId = true) : matchId ≠ socketId := by
  intro hms
  rw [LiveConnect.waitingOk, if_pos hms] at h
  cases h

theorem scanWaiting_ne_self (s : LiveConnect.State) (socketId : String) :
    ∀ (l : List String) (m : String) (rest : List String),
      LiveConnect.scanWaiting s socketId l = some (m, rest) → m ≠ socketId := by
  intro l
  induction l with
  | nil => intro m rest h; simp [LiveConnect.scanWaiting] at h
  | cons hd tl ih =>
    intro m rest h
    by_cases hok : LiveConnect.waitingOk s socketId hd = true
    · rw [LiveConnect.scanWaiting, if_pos hok] at h
      simp only [Option.some.injEq, Prod.mk.injEq] at h
      exact h.1 ▸ waitingOk_ne_self hok
    · rw [LiveConnect.scanWaiting, if_neg hok] at h
      cases hrec : LiveConnect.scanWaiting s socketId tl with
      | none => rw [hrec] at h; cases h
      | some p =>
        obtain ⟨found, rest'⟩ := p
        rw [hrec] at h
        simp only [Option.some.injEq, Prod.mk.injEq] at h
        exact h.1 ▸ ih found rest' hrec

theorem findMatch_ne_self (s : LiveConnect.State) (socketId m : String)
    (q' : List String) (h : LiveConnect.findMatch s socketId = some (m, q')) :
    m ≠ socketId := by
  rw [LiveConnect.findMatch] at h
  split at h
  · cases h
  · exact scanWaiting_ne_self s socketId _ m q' h

/-- C7: for every `match-found` emission pair of the LiveConnect `find-match`
handler, the requesting socket's event carries `isInitiator: true` and the
queued candidate's carries `false` (and these are the only shapes of the
handler's output); likewise the `src/server.js` `createMatch` always emits
`isInitiator: true` to its first argument — the requester whose search
triggered the match — and `false` to the already-queued candidate. -/
theorem c7_initiator_assignment (s : LiveConnect.State) (socketId roomId : String) :
    ((LiveConnect.findMatchHandler s socketId roomId).2 = [] ∨
     (LiveConnect.findMatchHandler s socketId roomId).2 =
       [LiveConnect.Event.searchingEvent socketId] ∨
     (∃ m, m ≠ socketId ∧ (LiveConnect.findMatchHandler s socketId roomId).2 =
       [LiveConnect.Event.matchFound socketId true,
        LiveConnect.Event.matchFound m false])) ∧
    (∀ (sj : ServerJs.State) (a b : String), (ServerJs.createMatch sj a b).1 = true →
       (ServerJs.createMatch sj a b).2.2 =
         [ServerJs.Event.matchFound a true, ServerJs.Event.matchFound b false]) := by
  constructor
  · cases hu : s.users socketId with
    | none => left; simp [LiveConnect.findMatchHandler, hu]
    | some user =>
      by_cases hg : (user.searching || user.inCall) = true
      · left; simp [LiveConnect.findMatchHandler, hu, hg]
      · cases hm : LiveConnect.findMatch { s with users := mapSet s.users socketId { user with searching := true } } socketId with
        | some p =>
          obtain ⟨matchId, q'⟩ := p
          right; right
          exact ⟨matchId, findMatch_ne_self _ socketId matchId q' hm,
            by simp [LiveConnect.findMatchHandler, hu, hg, hm]⟩
        | none =>
          right; left
          simp [LiveConnect.findMatchHandler, hu, hg, hm]
  · intro sj a b htrue
    rcases hA : sj.profiles a with _ | p1
    · simp [ServerJs.createMatch, hA] at htrue
    · rcases hB : sj.profiles b with _ | p2
      · simp [ServerJs.createMatch, hA, hB] at htrue
      · by_cases hCall : (p1.inCall || p2.inCall) = true
        · simp [ServerJs.createMatch, hA, hB, hCall] at htrue
        · by_cases hBlk : b ∈ p1.blocked ∨ a ∈ p2.blocked
          · simp [ServerJs.createMatch, hA, hB, hCall, hBlk] at htrue
          · simp [ServerJs.createMatch, hA, hB, hCall, hBlk]

/-- C7 witness: a concrete successful server.js bind of "a" (requester) and
"b" (queued candidate) emits exactly the initiator-true / initiator-false
pair. -/
theorem c7_witness :
    (ServerJs.createMatch c7State "a" "b").2.2 =
      [ServerJs.Event.matchFound "a" true, ServerJs.Event.matchFound "b" false] :=
  (c7_initiator_assignment lcEmptyState "x" "r").2 c7State "a" "b" (by decide)

/-- C2 counterexample: the partner-link invariant holds of the bound pair
"A" ↔ "B" in `c2State`, but after the `src/server.js` disconnect handler
runs for "A" it is violated: "A"'s profile is retained (deletion only
happens on a 60-second timer) with `partnerId` still pointing at "B" and
`inCall` still true, while "B"'s `partnerId` has been cleared — so the link
is no longer symmetric after one side of a bound pair disconnects. -/
theorem c2_counterexample :
    ServerJsPartnerInvariant c2State.profiles ∧
    ¬ ServerJsPartnerInvariant ((ServerJs.disconnectHandler c2State "A").1.profiles) := by
  constructor
  · intro a u ha
    by_cases hA : a = "A"
    · subst hA
      have ha' : some c2ProfileA = some u := ha
      injection ha' with ha'
      subst ha'
      refine ⟨⟨fun _ => ⟨"B", rfl⟩, fun _ => rfl⟩, ?_⟩
      intro p hp
      have hp' : (some "B" : Option String) = some p := hp
      injection hp' with hp'
      subst hp'
      exact ⟨c2ProfileB, rfl, rfl⟩
    · by_cases hB : a = "B"
      · subst hB
        have ha' : some c2ProfileB = some u := ha
        injection ha' with ha'
        subst ha'
        refine ⟨⟨fun _ => ⟨"A", rfl⟩, fun _ => rfl⟩, ?_⟩
        intro p hp
        have hp' : (some "A" : Option String) = some p := hp
        injection hp' with hp'
        subst hp'
        exact ⟨c2ProfileA, rfl, rfl⟩
      · have hnone : c2State.profiles a = none := by simp [c2State, hA, hB]
        rw [hnone] at ha; cases ha
  · intro h
    have hA : ((ServerJs.disconnectHandler c2State "A").1.profiles) "A" =
        some { c2ProfileA with isOnline := false } := by decide
    obtain ⟨v, hv, hvp⟩ := (h "A" { c2ProfileA with isOnline := false } hA).2 "B" rfl
    have hB : ((ServerJs.disconnectHandler c2State "A").1.profiles) "B" =
        some { c2ProfileB with inCall := false, partnerId := none } := by decide
    rw [hB] at hv
    injection hv with hv
    subst hv
    exact Option.noConfusion (hvp : (none : Option String) = some "A")

/-- C2 (amended): in the part_001 BrownTV variant — whose disconnect handler
clears the partner's link and deletes the disconnecting session immediately —
the partner-link invariant (a session is in a call iff its `partnerId` is
set, iff the named partner exists and points back) is preserved by the
disconnect of any session.  In `src/server.js` the invariant is instead
broken by a disconnect, because the disconnecting profile is retained with
its own `partnerId`/`inCall` fields untouched (see the counterexample). -/
theorem c2_disconnect_preserves_symmetry (s : BrownTv.State) (socketId : String)
    (hinv : BrownTv.PartnerInvariant s.users) :
    BrownTv.PartnerInvariant ((BrownTv.disconnectHandler s socketId).1).users := by
  cases hu : s.users socketId with
  | none =>
    have hF : ((BrownTv.disconnectHandler s socketId).1).users =
        mapDelete s.users socketId := by
      simp [BrownTv.disconnectHandler, hu]
    rw [hF]
    intro a u ha
    rw [mapDelete] at ha
    by_cases has : a = socketId
    · rw [if_pos has] at ha; cases ha
    · rw [if_neg has] at ha
      refine ⟨(hinv a u ha).1, ?_⟩
      intro p hp
      obtain ⟨v, hv, hvp⟩ := (hinv a u ha).2 p hp
      have hps : p ≠ socketId := by
        intro he
        rw [he, hu] at hv
        cases hv
      exact ⟨v, by rw [mapDelete, if_neg hps]; exact hv, hvp⟩
  | some u0 =>
    cases hp0 : u0.partnerId with
    | none =>
      have hF : ((BrownTv.disconnectHandler s socketId).1).users =
          mapDelete s.users socketId := by
        simp [BrownTv.disconnectHandler, hu, hp0]
      rw [hF]
      intro a u ha
      rw [mapDelete] at ha
      by_cases has : a = socketId
      · rw [if_pos has] at ha; cases ha
      · rw [if_neg has] at ha
        refine ⟨(hinv a u ha).1, ?_⟩
        intro p hp
        obtain ⟨v, hv, hvp⟩ := (hinv a u ha).2 p hp
        have hps : p ≠ socketId := by
          intro he
          rw [he, hu] at hv
          injection hv with hv
          subst hv
          rw [hp0] at hvp
          cases hvp
        exact ⟨v, by rw [mapDelete, if_neg hps]; exact hv, hvp⟩
    | some pid =>
      cases hpart : s.users pid with
      | none =>
        exfalso
        obtain ⟨v, hv, -⟩ := (hinv socketId u0 hu).2 pid hp0
        rw [hpart] at hv
        cases hv
      | some partner =>
        have hback : partner.partnerId = some socketId := by
          obtain ⟨v, hv, hvp⟩ := (hinv socketId u0 hu).2 pid hp0
          rw [hpart] at hv
          injection hv with hv
          subst hv
          exact hvp
        have hF : ((BrownTv.disconnectHandler s socketId).1).users =
            mapDelete (mapSet s.users pid { partner with inCall := false, partnerId := none })
              socketId := by
          simp [BrownTv.disconnectHandler, hu, hp0, hpart]
        rw [hF]
        intro a u ha
        rw [mapDelete] at ha
        by_cases has : a = socketId
        · rw [if_pos has] at ha; cases ha
        · rw [if_neg has] at ha
          by_cases hap : a = pid
          · subst hap
            rw [mapSet, if_pos rfl] at ha
            injection ha with ha
            subst ha
            constructor
            · constructor
              · intro hfalse; cases hfalse
              · intro hex; obtain ⟨p, hp⟩ := hex; cases hp
            · intro p hp
              cases hp
          · rw [mapSet, if_neg hap] at ha
            refine ⟨(hinv a u ha).1, ?_⟩
            intro p hp
            obtain ⟨v, hv, hvp⟩ := (hinv a u ha).2 p hp
            have hps : p ≠ socketId := by
              intro he
              rw [he, hu] at hv
              injection hv with hv
              subst hv
              rw [hp0] at hvp
              injection hvp with hvp
              exact hap hvp.symm
            have hpp : p ≠ pid := by
              intro he
              rw [he, hpart] at hv
              injection hv with hv
              subst hv
              rw [hback] at hvp
              injection hvp with hvp
              exact has hvp.symm
            refine ⟨v, ?_, hvp⟩
            rw [mapDelete, if_neg hps, mapSet, if_neg hpp]
            exact hv

/-- C2 witness: the preservation theorem applied to the concrete bound pair
"A" ↔ "B" of `bPairState`, for the disconnect of "A". -/
theorem c2_witness :
    BrownTv.PartnerInvariant ((BrownTv.disconnectHandler bPairState "A").1).users := by
  apply c2_disconnect_preserves_symmetry
  intro a u ha
  by_cases hA : a = "A"
  · subst hA
    have ha' : some bUserA = some u := ha
    injection ha' with ha'
    subst ha'
    refine ⟨⟨fun _ => ⟨"B", rfl⟩, fun _ => rfl⟩, ?_⟩
    intro p hp
    have hp' : (some "B" : Option String) = some p := hp
    injection hp' with hp'
    subst hp'
    exact ⟨bUserB, rfl, rfl⟩
  · by_cases hB : a = "B"
    · subst hB
      have ha' : some bUserB = some u := ha
      injection ha' with ha'
      subst ha'
      refine ⟨⟨fun _ => ⟨"A", rfl⟩, fun _ => rfl⟩, ?_⟩
      intro p hp
      have hp' : (some "A" : Option String) = some p := hp
      injection hp' with hp'
      subst hp'
      exact ⟨bUserA, rfl, rfl⟩
    · have hnone : bPairState.users a = none := by simp [bPairState, hA, hB]
      rw [hnone] at ha
      cases ha

theorem scanExact_ok (st : String → Option ServerJs.StoredUser) (socketId : String)
    (userData : ServerJs.StoredUser) :
    ∀ (l : List String) (m : String) (rest : List String),
      ServerJs.scanExact st socketId userData l = some (m, rest) →
      ServerJs.exactOk st socketId userData m = true := by
  intro l
  induction l with
  | nil => intro m rest h; simp [ServerJs.scanExact] at h
  | cons hd tl ih =>
    intro m rest h
    by_cases hok : ServerJs.exactOk st socketId userData hd = true
    · rw [ServerJs.scanExact, if_pos hok] at h
      simp only [Option.some.injEq, Prod.mk.injEq] at h
      rw [← h.1]
      exact hok
    · rw [ServerJs.scanExact, if_neg hok] at h
      cases hrec : ServerJs.scanExact st socketId userData tl with
      | none => rw [hrec] at h; cases h
      | some p =>
        obtain ⟨found, rest'⟩ := p
        rw [hrec] at h
        simp only [Option.some.injEq, Prod.mk.injEq] at h
        rw [← h.1]
        exact ih found rest' hrec

theorem scanAvailable_ok (st : String → Option ServerJs.StoredUser) (socketId : String) :
    ∀ (l : List String) (m : String) (rest : List String),
      ServerJs.scanAvailable st socketId l = some (m, rest) →
      ServerJs.availableOk st socketId m = true := by
  intro l
  induction l with
  | nil => intro m rest h; simp [ServerJs.scanAvailable] at h
  | cons hd tl ih =>
    intro m rest h
    by_cases hok : ServerJs.availableOk st socketId hd = true
    · rw [ServerJs.scanAvailable, if_pos hok] at h
      simp only [Option.some.injEq, Prod.mk.injEq] at h
      rw [← h.1]
      exact hok
    · rw [ServerJs.scanAvailable, if_neg hok] at h
      cases hrec : ServerJs.scanAvailable st socketId tl with
      | none => rw [hrec] at h; cases h
      | some p =>
        obtain ⟨found, rest'⟩ := p
        rw [hrec] at h
        simp only [Option.some.injEq, Prod.mk.injEq] at h
        rw [← h.1]
        exact ih found rest' hrec

theorem exactOk_elim {st : String → Option ServerJs.StoredUser} {socketId : String}
    {userData : ServerJs.StoredUser} {m : String}
    (h : ServerJs.exactOk st socketId userData m = true) :
    m ≠ socketId ∧ ∃ cand, st m = some cand ∧ cand.inCall = false := by
  by_cases h1 : m = socketId
  · rw [ServerJs.exactOk, if_pos h1] at h; cases h
  · refine ⟨h1, ?_⟩
    rw [ServerJs.exactOk, if_neg h1] at h
    cases hc : st m with
    | none => rw [hc] at h; cases h
    | some cand =>
      rw [hc] at h
      refine ⟨cand, rfl, ?_⟩
      by_cases h2 : cand.inCall = true
      · simp [h2] at h
      · simpa using h2

theorem availableOk_elim {st : String → Option ServerJs.StoredUser}
    {socketId m : String} (h : ServerJs.availableOk st socketId m = true) :
    m ≠ socketId ∧ ∃ cand, st m = some cand ∧ cand.inCall = false := by
  by_cases h1 : m = socketId
  · rw [ServerJs.availableOk, if_pos h1] at h; cases h
  · refine ⟨h1, ?_⟩
    rw [ServerJs.availableOk, if_neg h1] at h
    cases hc : st m with
    | none => rw [hc] at h; cases h
    | some cand =>
      rw [hc] at h
      exact ⟨cand, rfl, by simpa using h⟩

theorem findExactMatch_sound (s : ServerJs.MatchState) (socketId : String)
    (userData : ServerJs.StoredUser) (preferredGender m : String) (q' : ServerJs.Queues)
    (h : ServerJs.findExactMatch s socketId userData preferredGender = (some m, q')) :
    m ≠ socketId ∧ ∃ cand, s.store m = some cand ∧ cand.inCall = false := by
  rw [ServerJs.findExactMatch] at h
  split at h
  · rename_i f l hscan
    simp only [Prod.mk.injEq, Option.some.injEq] at h
    exact h.1 ▸ exactOk_elim (scanExact_ok s.store socketId userData _ f l hscan)
  · simp at h

theorem findReverseMatch_sound (s : ServerJs.MatchState) (socketId : String)
    (userData : ServerJs.StoredUser) (m : String) (q' : ServerJs.Queues)
    (h : ServerJs.findReverseMatch s socketId userData = (some m, q')) :
    m ≠ socketId ∧ ∃ cand, s.store m = some cand ∧ cand.inCall = false := by
  rw [ServerJs.findReverseMatch] at h
  split at h
  · simp at h
  · split at h
    · rename_i f l hscan
      simp only [Prod.mk.injEq, Option.some.injEq] at h
      exact h.1 ▸ availableOk_elim (scanAvailable_ok s.store socketId _ f l hscan)
    · simp at h

theorem findRandomMatch_sound (s : ServerJs.MatchState) (socketId m : String)
    (q' : ServerJs.Queues)
    (h : ServerJs.findRandomMatch s socketId = (some m, q')) :
    m ≠ socketId ∧ ∃ cand, s.store m = some cand ∧ cand.inCall = false := by
  rw [ServerJs.findRandomMatch] at h
  split at h
  · rename_i f l hscan
    simp only [Prod.mk.injEq, Option.some.injEq] at h
    exact h.1 ▸ availableOk_elim (scanAvailable_ok s.store socketId _ f l hscan)
  · split at h
    · rename_i f l hscan
      simp only [Prod.mk.injEq, Option.some.injEq] at h
      exact h.1 ▸ availableOk_elim (scanAvailable_ok s.store socketId _ f l hscan)
    · split at h
      · rename_i f l hscan
        simp only [Prod.mk.injEq, Option.some.injEq] at h
        exact h.1 ▸ availableOk_elim (scanAvailable_ok s.store socketId _ f l hscan)
      · split at h
        · rename_i f l hscan
          simp only [Prod.mk.injEq, Option.some.injEq] at h
          exact h.1 ▸ availableOk_elim (scanAvailable_ok s.store socketId _ f l hscan)
        · simp at h

theorem serverJs_findMatch_sound (s : ServerJs.MatchState) (socketId m : String)
    (q' : ServerJs.Queues) (h : ServerJs.findMatch s socketId = (some m, q')) :
    m ≠ socketId ∧ ∃ cand, s.store m = some cand ∧ cand.inCall = false := by
  cases hstore : s.store socketId with
  | none =>
    rw [ServerJs.findMatch, hstore] at h
    simp at h
  | some userData =>
    simp only [ServerJs.findMatch, hstore] at h
    rcases hexact : ServerJs.findExactMatch s socketId userData
        (if userData.lookingFor = "" then "all" else userData.lookingFor) with ⟨o, q⟩
    rw [hexact] at h
    cases o with
    | some f =>
      simp only [Prod.mk.injEq, Option.some.injEq] at h
      obtain ⟨h1, -⟩ := h
      exact h1 ▸ findExactMatch_sound s socketId userData _ f q hexact
    | none =>
      by_cases hall : (if userData.lookingFor = "" then "all" else userData.lookingFor) = "all"
      · rw [if_pos hall] at h
        rcases hrev : ServerJs.findReverseMatch s socketId userData with ⟨o2, q2⟩
        rw [hrev] at h
        cases o2 with
        | some f =>
          simp only [Prod.mk.injEq, Option.some.injEq] at h
          obtain ⟨h1, -⟩ := h
          exact h1 ▸ findReverseMatch_sound s socketId userData f q2 hrev
        | none => exact findRandomMatch_sound s socketId m q' h
      · rw [if_neg hall] at h
        exact findRandomMatch_sound s socketId m q' h

/-- C1 (amended): the two cited matchers give different guarantees, neither
of which is the full bidirectional filter check.  Every candidate returned by
the part_001 BrownTV `findMatch` exists, is not in a call, is distinct from
the requester, neither party has blocked the other, and both region filters
hold in both directions — but its `'all'`-queue fallback omits the
gender-interest checks.  The `src/server.js` matcher
(`findMatch`/`findExactMatch`/`findReverseMatch`/`findRandomMatch`)
guarantees only that the returned candidate exists in the store and is not
in a call: it performs no block-list and no region check on any path, and
only `findExactMatch` checks the candidate's own gender filter
(`findRandomMatch` accepts any available user). -/
theorem c1_findMatch_scan_guarantees :
    (∀ (s : BrownTv.State) (socketId m : String) (q' : BrownTv.Queues),
       BrownTv.findMatch s socketId = (some m, q') →
       ∃ user mu, s.users socketId = some user ∧ s.users m = some mu ∧
         m ≠ socketId ∧ mu.inCall = false ∧
         m ∉ s.blocked socketId ∧ socketId ∉ s.blocked m ∧
         BrownTv.regionReject user.regionFilter mu.region = false ∧
         BrownTv.regionReject mu.regionFilter user.region = false) ∧
    (∀ (sj : ServerJs.MatchState) (socketId m : String) (q' : ServerJs.Queues),
       ServerJs.findMatch sj socketId = (some m, q') →
       m ≠ socketId ∧ ∃ cand, sj.store m = some cand ∧ cand.inCall = false) := by
  constructor
  · intro s socketId m q' h
    obtain ⟨user, g, hu, hok⟩ := findMatch_some h
    obtain ⟨hne, mu, hmu, hrest⟩ := candidateOk_elim hok
    exact ⟨user, mu, hu, hmu, hne, hrest⟩
  · intro sj socketId m q' h
    exact serverJs_findMatch_sound sj socketId m q' h

/-- C1 witness: the theorem applied to the two concrete fallback states —
BrownTV's "r" matched to "c" out of the `'all'` queue, and the server.js
matcher's "r" matched to "c" by `findRandomMatch`. -/
theorem c1_witness :
    (∃ user mu, c1State.users "r" = some user ∧ c1State.users "c" = some mu ∧
       ("c" : String) ≠ "r" ∧ mu.inCall = false ∧
       "c" ∉ c1State.blocked "r" ∧ "r" ∉ c1State.blocked "c" ∧
       BrownTv.regionReject user.regionFilter mu.region = false ∧
       BrownTv.regionReject mu.regionFilter user.region = false) ∧
    (("c" : String) ≠ "r" ∧
     ∃ cand, c1jMatchState.store "c" = some cand ∧ cand.inCall = false) := by
  constructor
  · exact c1_findMatch_scan_guarantees.1 c1State "r" "c" ⟨[], [], []⟩ (by decide)
  · exact c1_findMatch_scan_guarantees.2 c1jMatchState "r" "c" ⟨[], [], [], []⟩ (by decide)

/-- C1 counterexample: both cited matchers return matches that violate the
spec's bidirectional filter check.  In `c1State` the BrownTV requester "r"
(male, looking for men) is matched from the `'all'`-queue fallback to "c",
whose own filter (women only) rejects "r" and whose unset gender fails "r"'s
filter.  In `c1jMatchState` the server.js `findMatch` falls through to
`findRandomMatch` and matches "r" (male seeking women) to "c" (male seeking
women): each party fails the other's gender-interest filter. -/
theorem c1_counterexample :
    ((BrownTv.findMatch c1State "r").1 = some "c" ∧
     specBidirectionalCompatible c1Requester c1Candidate
       (c1State.blocked "r") (c1State.blocked "c") "r" "c" = false) ∧
    ((ServerJs.findMatch c1jMatchState "r").1 = some "c" ∧
     specStoredGenderSatisfied c1jStoredR c1jStoredC = false ∧
     specStoredGenderSatisfied c1jStoredC c1jStoredR = false) := by decide
